import Mathlib

/-!
Shallow embedding of the `configure` secrets-management tool
(`src/configure.rs`) and verification of its specification.

The external collaborators (git plumbing, filesystem, terminal prompting,
encryption) are modelled as oracles: a `GitEnv` record of deterministic
functions describing what each git query would answer, answer records for
the interactive prompts, and a `World` state threading the secrets
repository checkout state, the persisted configuration and an event log.
Rust panics (`expect` / `unwrap`) are modelled as `Except.error`; every
workflow returns its final `World` alongside the outcome so that the state
at a panic is observable.
-/

namespace Configure

/-- Mirrors `struct File` (a file mapping) from `src/configure.rs`. -/
structure File where
  source : String
  destination : String
deriving DecidableEq, Repr

/-- Mirrors `struct ConfigurationFile` from `src/configure.rs`. -/
structure ConfigurationFile where
  project_name : String
  branch : String
  pinned_hash : String
  files_to_copy : List File
deriving DecidableEq, Repr

/-- Mirrors `impl Default for ConfigurationFile`: all scalar fields empty,
empty file list. -/
def ConfigurationFile.default : ConfigurationFile :=
  { project_name := "", branch := "", pinned_hash := "", files_to_copy := [] }

/-- Mirrors `ConfigurationFile::is_empty`: structural equality with the
default value (Rust derives `PartialEq` structurally). -/
def ConfigurationFile.is_empty (c : ConfigurationFile) : Bool :=
  decide (c = ConfigurationFile.default)

/-- Mirrors `ConfigurationFile::needs_project_name`. -/
def ConfigurationFile.needs_project_name (c : ConfigurationFile) : Bool :=
  c.project_name == ""

/-- Mirrors `ConfigurationFile::needs_branch`. -/
def ConfigurationFile.needs_branch (c : ConfigurationFile) : Bool :=
  c.branch == ""

/-- Mirrors `ConfigurationFile::needs_pinned_hash`. -/
def ConfigurationFile.needs_pinned_hash (c : ConfigurationFile) : Bool :=
  c.pinned_hash == ""

/-!
## Path model

`File::get_backup_destination` uses `std::path::Path` operations
(`parent`, `file_stem`, `extension`, `join`) and a chrono
`%Y-%m-%d-%H-%M-%S` local timestamp. We embed the documented Unix
semantics of those std operations on `String` paths.
-/

/-- One component of a Unix path, as produced by Rust's
`Path::components`: `.` (current dir), `..` (parent dir), or a normal
file/directory name. -/
inductive PathComp
  | curDir
  | parentDir
  | normal (s : String)
deriving DecidableEq, Repr

/-- Classify one non-empty chunk between separators. -/
def toComp (s : String) : PathComp :=
  if s = "." then PathComp.curDir
  else if s = ".." then PathComp.parentDir
  else PathComp.normal s

/-- Split a character list on `/`, keeping empty chunks (they are
filtered out later, as Rust ignores repeated separators). -/
def splitSlashAux : List Char → List Char → List String
  | [], acc => [String.mk acc.reverse]
  | c :: rest, acc =>
      if c = '/' then String.mk acc.reverse :: splitSlashAux rest []
      else splitSlashAux rest (c :: acc)

/-- Split a path string on `/`. -/
def splitSlash (p : String) : List String :=
  splitSlashAux p.data []

/-- Whether the path begins with the root separator. -/
def isAbsolutePath (p : String) : Bool :=
  match p.data with
  | c :: _ => c == '/'
  | [] => false

/-- Parse a Unix path the way Rust's `Path::components` does: a leading
`/` is the root, repeated separators and trailing separators are
ignored, and `.` components are normalized away except at the beginning
of a relative path. Returns (is-absolute, components). -/
def parsePath (p : String) : Bool × List PathComp :=
  let abs := isAbsolutePath p
  let comps := ((splitSlash p).filter (fun s => s ≠ "")).map toComp
  match abs, comps with
  | false, PathComp.curDir :: rest =>
      (false, PathComp.curDir :: rest.filter (fun c => c ≠ PathComp.curDir))
  | _, _ => (abs, comps.filter (fun c => c ≠ PathComp.curDir))

/-- Interleave `/` between path component strings. -/
def joinWithSlash : List String → String
  | [] => ""
  | [s] => s
  | s :: rest => s ++ "/" ++ joinWithSlash rest

/-- Rebuild a path string from parsed components. -/
def renderPath (abs : Bool) (comps : List PathComp) : String :=
  let strs := comps.map (fun c => match c with
    | PathComp.curDir => "."
    | PathComp.parentDir => ".."
    | PathComp.normal s => s)
  (if abs then "/" else "") ++ joinWithSlash strs

/-- Rust `Path::parent`: the path without its final component; `none`
when the path is empty or consists only of a root. -/
def pathParent (p : String) : Option String :=
  match parsePath p with
  | (_, []) => none
  | (abs, comps) => some (renderPath abs comps.dropLast)

/-- Rust `Path::file_name`: the final component when it is a normal
name, else `none`. -/
def pathFileName (p : String) : Option String :=
  match (parsePath p).2.getLast? with
  | some (PathComp.normal s) => some s
  | _ => none

/-- Index of the last occurrence of a dot in the remaining characters
(indices counted from `i`), accumulating the best answer so far. -/
def lastDotIdxAux : List Char → Nat → Option Nat → Option Nat
  | [], _, acc => acc
  | c :: rest, i, acc =>
      lastDotIdxAux rest (i + 1) (if c = '.' then some i else acc)

/-- Index of the last `.` in a file name, if any. -/
def lastDotPos (s : String) : Option Nat :=
  lastDotIdxAux s.toList 0 none

/-- Rust `Path::file_stem`: `none` without a file name; otherwise the
portion of the file name before its final `.`, except that a name whose
only `.` is the leading one is returned whole. -/
def pathFileStem (p : String) : Option String :=
  (pathFileName p).map (fun name =>
    match lastDotPos name with
    | none => name
    | some i => if i = 0 then name else String.mk (name.toList.take i))

/-- Rust `Path::extension`: the portion of the file name after its final
`.`, with `none` when there is no file name, no dot, or only a leading
dot. -/
def pathExtension (p : String) : Option String :=
  match pathFileName p with
  | none => none
  | some name =>
      match lastDotPos name with
      | none => none
      | some i =>
          if i = 0 then none else some (String.mk (name.toList.drop (i + 1)))

/-- Whether the path ends with the separator. -/
def endsWithSlash (p : String) : Bool :=
  match p.data.getLast? with
  | some c => c == '/'
  | none => false

/-- Rust `Path::join` (Unix `push`): an absolute right side replaces the
left; otherwise a separator is inserted when needed. -/
def pathJoin (dir file : String) : String :=
  if isAbsolutePath file then file
  else if dir = "" then file
  else if endsWithSlash dir then dir ++ file
  else dir ++ "/" ++ file

/-- A local wall-clock timestamp, standing for chrono's `Local::now()`;
the clock is passed explicitly to keep the embedding deterministic. -/
structure LocalTime where
  year : Nat
  month : Nat
  day : Nat
  hour : Nat
  minute : Nat
  second : Nat
deriving DecidableEq, Repr

/-- Zero-pad a number to the given width (chrono's `%Y` / `%m` / ... ). -/
def padZeros (width n : Nat) : String :=
  let s := toString n
  String.mk (List.replicate (width - s.length) (Char.ofNat 48)) ++ s

/-- chrono `format("%Y-%m-%d-%H-%M-%S")`. -/
def formatTimestamp (t : LocalTime) : String :=
  padZeros 4 t.year ++ "-" ++ padZeros 2 t.month ++ "-" ++ padZeros 2 t.day
    ++ "-" ++ padZeros 2 t.hour ++ "-" ++ padZeros 2 t.minute
    ++ "-" ++ padZeros 2 t.second

/-- Mirrors `File::get_encrypted_destination`:
`self.destination.clone() + ".enc"`. -/
def File.get_encrypted_destination (f : File) : String :=
  f.destination ++ ".enc"

/-- Mirrors `File::get_decrypted_destination`: `self.destination.clone()`. -/
def File.get_decrypted_destination (f : File) : String :=
  f.destination

/-- Mirrors `File::get_backup_destination`. The clock is an explicit
argument; `none` models the panic of `path.file_stem().unwrap()` when
the destination has no file name. The `parent` fallback to `/` and the
empty-extension fallback are as in the source. -/
def File.get_backup_destination (f : File) (now : LocalTime) : Option String :=
  let path := f.destination
  let directory := match pathParent path with
    | some parent => parent
    | none => "/"
  match pathFileStem path with
  | none => none
  | some file_stem =>
      let datetime := formatTimestamp now
      let extension := (pathExtension path).getD ""
      let filename := file_stem ++ "-" ++ datetime ++ "." ++ extension ++ ".bak"
      some (pathJoin directory filename)

/-!
## Workflow model

The update (`update_configuration`), setup (`setup_configuration`) and
apply (`apply_configuration`) workflows call the git / fs / ui
collaborators. Those are modelled by a `GitEnv` of deterministic
oracles, explicit prompt-answer records, and a `World` state carrying
the secrets repository checkout, the persisted configuration, and an
event log of every checkout performed. A Rust `expect`/`unwrap` panic is
an `Except.error`; the final `World` is returned in every case so the
state at a panic is observable.
-/

/-- Mirrors `crate::git::RepoSyncState`. -/
inductive RepoSyncState
  | Ahead
  | Behind
  | Synced
deriving DecidableEq, Repr

/-- Result of `get_secrets_repo_status`. -/
structure RepoStatus where
  sync_state : RepoSyncState
  distance : Nat
deriving DecidableEq, Repr

/-- The secrets repository's checked-out branch and commit hash. -/
structure RepoState where
  branch : String
  hash : String
deriving DecidableEq, Repr

/-- Oracles for the external git / fs / key collaborators; each field
describes the (deterministic) answer the corresponding call would give
during this run, `none` / `false` meaning the call fails. -/
structure GitEnv where
  fetch_ok : Bool
  branches : Option (List String)
  repo_status : Option RepoStatus
  tip : String → Option String
  latest_remote : String → Option String
  secrets_latest_hash : String → Option String
  distance_between : String → String → Option Int
  rev_ok : String → String → Bool
  save_ok : Bool
  write_ok : Bool
  decrypt_ok : Bool
  read_key : Option (Option String)
  genkey_ok : Bool

/-- Mutable world threaded through a workflow run: repository checkout
state, the configuration last persisted to disk, which configurations
had encrypted/decrypted files written, and the log of every checkout. -/
structure World where
  repo : RepoState
  savedConfig : Option ConfigurationFile
  encryptedConfig : Option ConfigurationFile
  appliedConfig : Option ConfigurationFile
  checkoutLog : List RepoState
deriving DecidableEq, Repr

/-- Mirrors `crate::git::check_out_branch`: on success the repository
moves to the branch tip; on failure it is unchanged. -/
def check_out_branch (env : GitEnv) (branch_name : String) (w : World) :
    World × Bool :=
  match env.tip branch_name with
  | none => (w, false)
  | some h =>
      ({ w with repo := ⟨branch_name, h⟩,
                checkoutLog := w.checkoutLog ++ [⟨branch_name, h⟩] }, true)

/-- Mirrors `crate::git::check_out_branch_at_revision`. -/
def check_out_branch_at_revision (env : GitEnv) (branch_name hash : String)
    (w : World) : World × Bool :=
  if env.rev_ok branch_name hash then
    ({ w with repo := ⟨branch_name, hash⟩,
              checkoutLog := w.checkoutLog ++ [⟨branch_name, hash⟩] }, true)
  else (w, false)

/-- Mirrors `save_configuration` (crate::fs): persists the
configuration when the write succeeds. -/
def save_configuration (env : GitEnv) (configuration : ConfigurationFile)
    (w : World) : World × Except String Unit :=
  if env.save_ok then
    ({ w with savedConfig := some configuration }, Except.ok ())
  else (w, Except.error "Unable to save updated configuration")

/-- Mirrors `write_encrypted_files_for_configuration`. -/
def write_encrypted_files_for_configuration (env : GitEnv)
    (configuration : ConfigurationFile) (w : World) :
    World × Except String Unit :=
  if env.write_ok then
    ({ w with encryptedConfig := some configuration }, Except.ok ())
  else (w, Except.error "Unable to copy encrypted files")

/-- Mirrors `apply_configuration`: decrypts the project files
(`decrypt_files_for_configuration`), panicking on failure. -/
def apply_configuration (env : GitEnv) (configuration : ConfigurationFile)
    (w : World) : World × Except String Unit :=
  if env.decrypt_ok then
    ({ w with appliedConfig := some configuration }, Except.ok ())
  else (w, Except.error "Unable to decrypt and copy files")

/-- Mirrors `prompt_for_branch`. The `Bool` in the result records
whether the user was actually prompted. Prompting needs the branch list
(`get_secrets_branches().expect`); the user's selection is
`selected_branch`. The repository checkout is never touched. -/
def prompt_for_branch (env : GitEnv) (selected_branch : String)
    (configuration : ConfigurationFile) (force : Bool) :
    Except String (ConfigurationFile × Bool) :=
  if !configuration.needs_branch && !force then
    Except.ok (configuration, false)
  else
    match env.branches with
    | none => Except.error "Unable to fetch secrets branches"
    | some _ =>
        Except.ok ({ configuration with branch := selected_branch }, true)

/-- Mirrors `configure_file_distance_behind_secrets_repo`: captures the
current branch/hash, checks out `branch_name`, reads the tip hash,
computes the distance from `pinned_hash`, and restores the captured
branch/hash. The two `unwrap`s and the `expect`s are `Except.error`
exits. -/
def configure_file_distance_behind_secrets_repo (env : GitEnv)
    (configuration : ConfigurationFile) (branch_name : String) (w : World) :
    World × Except String Int :=
  match check_out_branch env branch_name w with
  | (w1, false) => (w1, Except.error "Unable to switch branches")
  | (w1, true) =>
      match env.distance_between configuration.pinned_hash w1.repo.hash with
      | none => (w1, Except.error "called Option.unwrap on a None value")
      | some distance =>
          match check_out_branch_at_revision env w.repo.branch w.repo.hash w1 with
          | (w2, false) => (w2, Except.error "Unable to roll back to branch")
          | (w2, true) => (w2, Except.ok distance)

/-- Mirrors step 4 of `update_configuration` (the `if distance > 0`
block): when the pinned hash is behind and the user confirms, resolve
the latest remote hash of the branch, check the repository out at that
exact branch and hash, and set `pinned_hash` to it; otherwise leave the
configuration and repository untouched. -/
def adopt_latest_if_behind (env : GitEnv) (adopt : Bool) (distance : Int)
    (configuration : ConfigurationFile) (w1 : World) :
    World × Except String ConfigurationFile :=
  if distance > 0 then
    if adopt then
      match env.latest_remote configuration.branch with
      | none => (w1, Except.error "Unable to fetch latest commit hash")
      | some latest_commit_hash =>
          match check_out_branch_at_revision env
              configuration.branch latest_commit_hash w1 with
          | (w2, false) =>
              (w2, Except.error "Unable to check out branch at revision")
          | (w2, true) =>
              (w2, Except.ok
                { configuration with pinned_hash := latest_commit_hash })
    else (w1, Except.ok configuration)
  else (w1, Except.ok configuration)

/-- The user's answers during one `update_configuration` run. -/
structure UpdateAnswers where
  selected_branch : String
  drift_continue : Bool
  adopt_latest : Bool
deriving DecidableEq, Repr

/-- How an `update_configuration` run can terminate without a panic:
all steps completed, or the user declined the drift-check confirmation
(the early `return`). -/
inductive UpdateOutcome
  | success
  | declined
deriving DecidableEq, Repr

/-- Mirrors `update_configuration` from `src/configure.rs`: capture
baseline, fetch, forced branch prompt, drift check with confirmation,
pinned-hash distance check with adopt-latest prompt, save, write
encrypted files, roll back to the baseline, apply. -/
def update_configuration (env : GitEnv) (ans : UpdateAnswers)
    (configuration : ConfigurationFile) (w : World) :
    World × Except String UpdateOutcome :=
  if !env.fetch_ok then (w, Except.error "Unable to fetch latest secrets")
  else
    match prompt_for_branch env ans.selected_branch configuration true with
    | Except.error e => (w, Except.error e)
    | Except.ok (configuration, _) =>
        match env.repo_status with
        | none => (w, Except.error "Unable to get secrets repo status")
        | some status =>
            if !(match status.sync_state with
                 | RepoSyncState.Ahead => ans.drift_continue
                 | RepoSyncState.Behind => ans.drift_continue
                 | RepoSyncState.Synced => true) then
              (w, Except.ok UpdateOutcome.declined)
            else
              match configure_file_distance_behind_secrets_repo env
                  configuration configuration.branch w with
              | (w1, Except.error e) => (w1, Except.error e)
              | (w1, Except.ok distance) =>
                  match adopt_latest_if_behind env ans.adopt_latest distance
                      configuration w1 with
                  | (w2, Except.error e) => (w2, Except.error e)
                  | (w2, Except.ok configuration) =>
                      match save_configuration env configuration w2 with
                      | (w3, Except.error e) => (w3, Except.error e)
                      | (w3, Except.ok _) =>
                          match write_encrypted_files_for_configuration env
                              configuration w3 with
                          | (w4, Except.error e) => (w4, Except.error e)
                          | (w4, Except.ok _) =>
                              match check_out_branch_at_revision env
                                  w.repo.branch w.repo.hash w4 with
                              | (w5, false) =>
                                  (w5, Except.error "Unable to roll back to branch")
                              | (w5, true) =>
                                  match apply_configuration env configuration w5 with
                                  | (w6, Except.error e) => (w6, Except.error e)
                                  | (w6, Except.ok _) =>
                                      (w6, Except.ok UpdateOutcome.success)

/-- The user's answers during one `setup_configuration` run: the project
name, the selected branch, and the scripted add-file loop (one entry per
`confirm`-yes iteration; `none` models an iteration whose source path
did not exist and was skipped). -/
structure SetupAnswers where
  answered_project_name : String
  selected_branch : String
  add_files : List (Option File)
deriving DecidableEq, Repr

/-- Which prompts/derivations actually happened during a setup run. -/
structure SetupTrace where
  prompted_project_name : Bool
  prompted_branch : Bool
  derived_pinned_hash : Bool
deriving DecidableEq, Repr

/-- Mirrors `prompt_for_project_name_if_needed`; the `Bool` records
whether the prompt happened. -/
def prompt_for_project_name_if_needed (answer : String)
    (configuration : ConfigurationFile) : ConfigurationFile × Bool :=
  if !configuration.needs_project_name then (configuration, false)
  else ({ configuration with project_name := answer }, true)

/-- Mirrors `set_latest_hash_if_needed`; the `Bool` records whether the
hash was derived from the branch tip. -/
def set_latest_hash_if_needed (env : GitEnv)
    (configuration : ConfigurationFile) :
    Except String (ConfigurationFile × Bool) :=
  if !configuration.needs_pinned_hash then Except.ok (configuration, false)
  else
    match env.secrets_latest_hash configuration.branch with
    | none => Except.error "Unable to fetch the latest secrets hash"
    | some latest_hash =>
        Except.ok ({ configuration with pinned_hash := latest_hash }, true)

/-- Mirrors `prompt_to_add_files`: appends each accepted file of the
scripted loop, skipping the `none` iterations. -/
def prompt_to_add_files (adds : List (Option File))
    (configuration : ConfigurationFile) : ConfigurationFile :=
  { configuration with
      files_to_copy := configuration.files_to_copy ++ adds.filterMap id }

/-- Mirrors `setup_configuration`: fill project name if needed, forced
branch prompt, derive pinned hash if needed, add files, save, ensure an
encryption key exists. Returns the final configuration and the prompt
trace. -/
def setup_configuration (env : GitEnv) (ans : SetupAnswers)
    (configuration : ConfigurationFile) :
    Except String (ConfigurationFile × SetupTrace) :=
  match prompt_for_project_name_if_needed ans.answered_project_name configuration with
  | (c1, prompted_name) =>
      match prompt_for_branch env ans.selected_branch c1 true with
      | Except.error e => Except.error e
      | Except.ok (c2, prompted_branch) =>
          match set_latest_hash_if_needed env c2 with
          | Except.error e => Except.error e
          | Except.ok (c3, derived_hash) =>
              let c4 := prompt_to_add_files ans.add_files c3
              if !env.save_ok then Except.error "Unable to save configure file"
              else
                match env.read_key with
                | none => Except.error "called Result.unwrap on an Err value"
                | some (some _) =>
                    Except.ok (c4, ⟨prompted_name, prompted_branch, derived_hash⟩)
                | some none =>
                    if env.genkey_ok then
                      Except.ok (c4, ⟨prompted_name, prompted_branch, derived_hash⟩)
                    else
                      Except.error "Unable to automatically generate an encryption key for this project"

/-!
## Concrete inputs used by witnesses and counterexamples

A small secrets repository: currently on branch `main` at hash `h0`;
branch `dev` exists with tip `c3`; the pinned hash `c1` is two commits
behind `c3`. All fallible collaborator calls succeed.
-/

/-- An environment where every collaborator call succeeds. -/
def demoEnv : GitEnv :=
  { fetch_ok := true
    branches := some ["main", "dev"]
    repo_status := some ⟨RepoSyncState.Synced, 0⟩
    tip := fun b =>
      if b == "dev" then some "c3"
      else if b == "main" then some "h0" else none
    latest_remote := fun b => if b == "dev" then some "c3" else none
    secrets_latest_hash := fun b => if b == "dev" then some "c3" else none
    distance_between := fun a b =>
      if a == "c1" && b == "c3" then some 2
      else if a == b then some 0 else none
    rev_ok := fun _ _ => true
    save_ok := true
    write_ok := true
    decrypt_ok := true
    read_key := some (some "key")
    genkey_ok := true }

/-- `demoEnv` with an `Ahead` drift status, for the drift-decline path. -/
def demoEnvAhead : GitEnv :=
  { demoEnv with repo_status := some ⟨RepoSyncState.Ahead, 1⟩ }

/-- `demoEnv` whose distance oracle always fails, making the
`secrets_repo_distance_between(..).unwrap()` call panic. -/
def demoEnvBadDistance : GitEnv :=
  { demoEnv with distance_between := fun _ _ => none }

/-- Starting world: checked out on `main` at `h0`, nothing persisted. -/
def demoWorld : World :=
  ⟨⟨"main", "h0"⟩, none, none, none, []⟩

/-- A configuration pinned to `c1`, two commits behind `dev`'s tip. -/
def demoConfig : ConfigurationFile :=
  ⟨"proj", "dev", "c1", []⟩

/-- Update answers: keep branch `dev`, continue past drift, adopt. -/
def demoAnsAccept : UpdateAnswers := ⟨"dev", true, true⟩

/-- Update answers: keep branch `dev`, continue past drift, decline. -/
def demoAnsDecline : UpdateAnswers := ⟨"dev", true, false⟩

/-- Update answers declining the drift-check confirmation. -/
def demoAnsAbort : UpdateAnswers := ⟨"dev", false, false⟩

/-- Setup answers for an empty configuration. -/
def demoSetupAns : SetupAnswers :=
  ⟨"proj", "dev", [some ⟨"a", "b"⟩, none]⟩

/-- A timestamp used by the backup-destination witnesses. -/
def demoTime : LocalTime := ⟨2024, 1, 2, 3, 4, 5⟩

example : pathParent "/a/b/secret.yml" = some "/a/b" := by decide
example : pathFileStem "/a/b/secret.yml" = some "secret" := by decide
example : pathExtension "/a/b/secret.yml" = some "yml" := by decide
example : pathParent "" = none := by decide
example : pathParent "/" = none := by decide
example : pathFileStem "/" = none := by decide
example : pathFileName "foo.txt" = some "foo.txt" := by decide
example : pathParent "foo.txt" = some "" := by decide
example : pathFileStem ".foo" = some ".foo" := by decide
example : pathExtension ".foo" = none := by decide
example : pathFileStem "a.tar.gz" = some "a.tar" := by decide
example :
    File.get_backup_destination ⟨"s", "/a/b/secret.yml"⟩ ⟨2024, 1, 2, 3, 4, 5⟩
      = some "/a/b/secret-2024-01-02-03-04-05.yml.bak" := by decide

/-!
## Helper lemmas about the workflow steps
-/

/-- A successful pinned checkout moves the repository exactly to the
requested branch and revision. -/
theorem rev_checkout_ok_repo (env : GitEnv) (b hsh : String) (w w2 : World)
    (h : check_out_branch_at_revision env b hsh w = (w2, true)) :
    w2.repo = ⟨b, hsh⟩ := by
  unfold check_out_branch_at_revision at h
  split at h
  · injection h with h1 h2
    subst h1
    rfl
  · injection h with h1 h2
    exact Bool.noConfusion h2

/-- A pinned checkout only appends to the checkout log and never
touches the persisted configuration. -/
theorem rev_checkout_frame (env : GitEnv) (b hsh : String) (w w2 : World)
    (ok : Bool) (h : check_out_branch_at_revision env b hsh w = (w2, ok)) :
    w2.savedConfig = w.savedConfig ∧
    ∀ x ∈ w.checkoutLog, x ∈ w2.checkoutLog := by
  unfold check_out_branch_at_revision at h
  split at h <;> injection h with h1 h2 <;> subst h1 <;>
    exact ⟨rfl, fun x hx => by simp [hx]⟩

/-- Saving the configuration changes only `savedConfig`; on success it
persists exactly the given configuration. -/
theorem save_configuration_frame (env : GitEnv) (cfg : ConfigurationFile)
    (w w2 : World) (r : Except String Unit)
    (h : save_configuration env cfg w = (w2, r)) :
    w2.repo = w.repo ∧ w2.checkoutLog = w.checkoutLog ∧
    (r = Except.ok () → w2.savedConfig = some cfg) := by
  unfold save_configuration at h
  split at h <;> injection h with h1 h2 <;> subst h1 <;> subst h2
  · exact ⟨rfl, rfl, fun _ => rfl⟩
  · exact ⟨rfl, rfl, fun hr => Except.noConfusion hr⟩

/-- Writing the encrypted files changes only `encryptedConfig`. -/
theorem write_encrypted_frame (env : GitEnv) (cfg : ConfigurationFile)
    (w w2 : World) (r : Except String Unit)
    (h : write_encrypted_files_for_configuration env cfg w = (w2, r)) :
    w2.repo = w.repo ∧ w2.checkoutLog = w.checkoutLog ∧
    w2.savedConfig = w.savedConfig := by
  unfold write_encrypted_files_for_configuration at h
  split at h <;> injection h with h1 h2 <;> subst h1 <;>
    exact ⟨rfl, rfl, rfl⟩

/-- Applying the configuration changes only `appliedConfig`. -/
theorem apply_configuration_frame (env : GitEnv) (cfg : ConfigurationFile)
    (w w2 : World) (r : Except String Unit)
    (h : apply_configuration env cfg w = (w2, r)) :
    w2.repo = w.repo ∧ w2.checkoutLog = w.checkoutLog ∧
    w2.savedConfig = w.savedConfig := by
  unfold apply_configuration at h
  split at h <;> injection h with h1 h2 <;> subst h1 <;>
    exact ⟨rfl, rfl, rfl⟩

/-- If a path has no parent component then it also has no file name
(its component list is empty), hence no file stem. -/
theorem pathParent_none_no_file_name (p : String)
    (h : pathParent p = none) : pathFileName p = none := by
  unfold pathParent at h
  unfold pathFileName
  rcases hp : parsePath p with ⟨abs, comps⟩
  rw [hp] at h
  cases comps with
  | nil => simp
  | cons c cs => exact Option.noConfusion h

/-!
## Claim theorems
-/

/-- C6: `needs_project_name`, `needs_branch` and `needs_pinned_hash`
are true iff the respective field is the empty string, and `is_empty`
is true iff the value structurally equals the all-empty default (all
scalar fields empty and the file list empty). -/
theorem c6_configuration_file_queries (c : ConfigurationFile) :
    (c.needs_project_name = true ↔ c.project_name = "") ∧
    (c.needs_branch = true ↔ c.branch = "") ∧
    (c.needs_pinned_hash = true ↔ c.pinned_hash = "") ∧
    (c.is_empty = true ↔
      (c.project_name = "" ∧ c.branch = "" ∧ c.pinned_hash = "" ∧
        c.files_to_copy = [])) := by
  obtain ⟨pn, br, ph, fs⟩ := c
  simp [ConfigurationFile.needs_project_name, ConfigurationFile.needs_branch,
    ConfigurationFile.needs_pinned_hash, ConfigurationFile.is_empty,
    ConfigurationFile.default, ConfigurationFile.mk.injEq, and_assoc]

/-- C7: for every file mapping, the encrypted destination is the
destination with `.enc` appended and the decrypted destination is the
destination itself, with no normalization. -/
theorem c7_file_mapping_destinations (f : File) :
    f.get_encrypted_destination = f.destination ++ ".enc" ∧
    f.get_decrypted_destination = f.destination :=
  ⟨rfl, rfl⟩

/-- C8: backup destination generation is deterministic given a fixed
clock and follows the format directory-of-destination /
stem-YYYY-MM-DD-HH-MM-SS.ext.bak; in particular for
`/a/b/secret.yml` at local time 2024-01-02T03:04:05 the result is
`/a/b/secret-2024-01-02-03-04-05.yml.bak`. -/
theorem c8_backup_destination_format :
    (∀ (f : File) (now : LocalTime) (stem dir : String),
        pathFileStem f.destination = some stem →
        pathParent f.destination = some dir →
        f.get_backup_destination now =
          some (pathJoin dir (stem ++ "-" ++ formatTimestamp now ++ "." ++
            (pathExtension f.destination).getD "" ++ ".bak"))) ∧
    File.get_backup_destination ⟨"s", "/a/b/secret.yml"⟩ demoTime
      = some "/a/b/secret-2024-01-02-03-04-05.yml.bak" := by
  constructor
  · intro f now stem dir hstem hdir
    simp only [File.get_backup_destination, hstem, hdir]
  · decide

/-- C8 witness: the format clause applied at a concrete mapping and
clock. -/
theorem c8_backup_destination_format_witness :
    File.get_backup_destination ⟨"s", "/x/report.txt"⟩ demoTime
      = some (pathJoin "/x" ("report" ++ "-" ++ formatTimestamp demoTime ++ "."
          ++ (pathExtension "/x/report.txt").getD "" ++ ".bak")) :=
  c8_backup_destination_format.1 ⟨"s", "/x/report.txt"⟩ demoTime
    "report" "/x" (by decide) (by decide)

/-- C10 counterexample: the destination `/` has no parent component,
yet no backup is placed under `/`: the call panics (the `file_stem`
unwrap fails before the fallback directory is ever used), so it returns
no path at all. -/
theorem c10_counterexample :
    pathParent "/" = none ∧
    File.get_backup_destination ⟨"s", "/"⟩ demoTime = none := by
  decide

/-- C10 (amended): `get_backup_destination` is partial: it returns
normally for every destination with a file-stem component, and panics
on the unchecked `file_stem()` unwrap for a destination with no file
name (for example the empty string). A destination with no parent
component also has no file stem, so the `/` fallback directory never
yields a returned backup path: such calls panic instead. -/
theorem c10_backup_destination_partiality :
    (∀ (f : File) (now : LocalTime) (stem : String),
        pathFileStem f.destination = some stem →
        (f.get_backup_destination now).isSome = true) ∧
    (∀ (f : File) (now : LocalTime),
        pathFileName f.destination = none →
        f.get_backup_destination now = none) ∧
    (File.get_backup_destination ⟨"s", ""⟩ demoTime = none) ∧
    (∀ (f : File) (now : LocalTime),
        pathParent f.destination = none →
        f.get_backup_destination now = none) := by
  refine ⟨?_, ?_, by decide, ?_⟩
  · intro f now stem hstem
    simp only [File.get_backup_destination, hstem, Option.isSome_some]
  · intro f now hname
    have hstem : pathFileStem f.destination = none := by
      unfold pathFileStem
      rw [hname]
      rfl
    simp only [File.get_backup_destination, hstem]
  · intro f now hpar
    have hname := pathParent_none_no_file_name f.destination hpar
    have hstem : pathFileStem f.destination = none := by
      unfold pathFileStem
      rw [hname]
      rfl
    simp only [File.get_backup_destination, hstem]

/-- C10 witness: the partiality clauses applied at concrete inputs: a
destination with a stem returns normally, the empty destination and a
parentless destination panic. -/
theorem c10_backup_destination_partiality_witness :
    (File.get_backup_destination ⟨"s", "/tmp/x.txt"⟩ demoTime).isSome = true ∧
    File.get_backup_destination ⟨"s", ""⟩ demoTime = none ∧
    File.get_backup_destination ⟨"s", "//"⟩ demoTime = none :=
  ⟨c10_backup_destination_partiality.1 ⟨"s", "/tmp/x.txt"⟩ demoTime "x" (by decide),
   c10_backup_destination_partiality.2.1 ⟨"s", ""⟩ demoTime (by decide),
   c10_backup_destination_partiality.2.2.2 ⟨"s", "//"⟩ demoTime (by decide)⟩

/-- C2 counterexample: when the distance oracle fails (the
`secrets_repo_distance_between(..).unwrap()` panic), the function does
NOT check the repository back out: it terminates with the repository
left on the requested branch `dev` instead of the captured `main`. -/
theorem c2_counterexample :
    (configure_file_distance_behind_secrets_repo demoEnvBadDistance
        demoConfig "dev" demoWorld).1.repo ≠ demoWorld.repo ∧
    (configure_file_distance_behind_secrets_repo demoEnvBadDistance
        demoConfig "dev" demoWorld).2
      = Except.error "called Option.unwrap on a None value" := by
  constructor
  · decide
  · rfl

/-- C2 (amended): the distance computation captures the current
branch/hash, temporarily checks out the requested branch, and — when
reading the hash and computing the distance succeed — checks the
repository back out to the captured branch/hash before returning; but
when an intermediate step fails the function panics without restoring
the checkout. -/
theorem c2_distance_check_restores_on_success (env : GitEnv)
    (c : ConfigurationFile) (b : String) (w w2 : World) (d : Int)
    (h : configure_file_distance_behind_secrets_repo env c b w
      = (w2, Except.ok d)) :
    w2.repo = w.repo := by
  unfold configure_file_distance_behind_secrets_repo at h
  split at h
  · exact absurd (congrArg Prod.snd h) (by simp)
  next w1 heq1 =>
    split at h
    · exact absurd (congrArg Prod.snd h) (by simp)
    next dist heq2 =>
      split at h
      · exact absurd (congrArg Prod.snd h) (by simp)
      next w2x heq3 =>
        injection h with h1 h2
        subst h1
        exact rev_checkout_ok_repo env _ _ _ _ heq3

/-- C2 witness: a successful concrete run restores the starting
branch and hash. -/
theorem c2_distance_check_restores_on_success_witness :
    (configure_file_distance_behind_secrets_repo demoEnv demoConfig "dev"
        demoWorld).1.repo = demoWorld.repo :=
  c2_distance_check_restores_on_success demoEnv demoConfig "dev" demoWorld
    (configure_file_distance_behind_secrets_repo demoEnv demoConfig "dev"
        demoWorld).1 2 rfl

/-- Inversion of a successful distance check: the distance returned is
the oracle distance between the pinned hash and the branch tip, the
repository ends back where it started, the persisted configuration is
untouched, and the checkout log only grows. -/
theorem distance_check_inv (env : GitEnv) (c : ConfigurationFile)
    (b tipH : String) (w w1 : World) (dist d : Int)
    (htip : env.tip b = some tipH)
    (hdist : env.distance_between c.pinned_hash tipH = some d)
    (heq : configure_file_distance_behind_secrets_repo env c b w
      = (w1, Except.ok dist)) :
    dist = d ∧ w1.repo = w.repo ∧ w1.savedConfig = w.savedConfig ∧
    ∀ x ∈ w.checkoutLog, x ∈ w1.checkoutLog := by
  unfold configure_file_distance_behind_secrets_repo check_out_branch at heq
  rw [htip] at heq
  simp only [hdist] at heq
  split at heq
  · exact absurd (congrArg Prod.snd heq) (by simp)
  next w2x heq3 =>
    injection heq with h1 h2
    subst h1
    injection h2 with h2
    refine ⟨h2.symm, rev_checkout_ok_repo env _ _ _ _ heq3, ?_, ?_⟩
    · exact (rev_checkout_frame env _ _ _ _ _ heq3).1
    · intro x hx
      exact (rev_checkout_frame env _ _ _ _ _ heq3).2 x (by simp [hx])

/-- Inversion of the adopt step when the user accepts and the project
is behind: the returned configuration pins the resolved latest hash,
the repository is checked out at exactly that branch and hash (and the
checkout is in the log), and the persisted configuration is untouched. -/
theorem adopt_accept_inv (env : GitEnv) (d : Int) (c : ConfigurationFile)
    (w1 w2 : World) (cfg : ConfigurationFile) (latest : String)
    (hpos : d > 0) (hl : env.latest_remote c.branch = some latest)
    (heq : adopt_latest_if_behind env true d c w1 = (w2, Except.ok cfg)) :
    cfg = { c with pinned_hash := latest } ∧
    w2.repo = ⟨c.branch, latest⟩ ∧
    w2.savedConfig = w1.savedConfig ∧
    (⟨c.branch, latest⟩ : RepoState) ∈ w2.checkoutLog ∧
    ∀ x ∈ w1.checkoutLog, x ∈ w2.checkoutLog := by
  unfold adopt_latest_if_behind at heq
  rw [if_pos hpos, if_pos rfl] at heq
  simp only [hl] at heq
  split at heq
  · exact absurd (congrArg Prod.snd heq) (by simp)
  next w2x heq3 =>
    injection heq with h1 h2
    subst h1
    injection h2 with h2
    have hrepo := rev_checkout_ok_repo env _ _ _ _ heq3
    have hframe := rev_checkout_frame env _ _ _ _ _ heq3
    refine ⟨h2.symm, hrepo, hframe.1, ?_, hframe.2⟩
    unfold check_out_branch_at_revision at heq3
    split at heq3
    · injection heq3 with h3 h4
      subst h3
      simp
    · injection heq3 with h3 h4
      exact Bool.noConfusion h4

/-- The adopt step is the identity on the configuration and the world
when the user declines. -/
theorem adopt_decline_eq (env : GitEnv) (d : Int) (c : ConfigurationFile)
    (w1 : World) :
    adopt_latest_if_behind env false d c w1 = (w1, Except.ok c) := by
  unfold adopt_latest_if_behind
  split <;> rfl

/-- C1: rollback invariant of the update workflow: every run that
terminates without a panic — full success, or the user-declined abort
at the drift check — leaves the secrets repository checked out at the
`starting_branch`/`starting_ref` captured at the beginning. -/
theorem c1_update_rollback_invariant (env : GitEnv) (ans : UpdateAnswers)
    (c : ConfigurationFile) (w w2 : World) (r : UpdateOutcome)
    (h : update_configuration env ans c w = (w2, Except.ok r)) :
    w2.repo = w.repo := by
  unfold update_configuration at h
  split at h
  · exact absurd (congrArg Prod.snd h) (by simp)
  split at h
  · exact absurd (congrArg Prod.snd h) (by simp)
  next c1 pr heqp =>
    split at h
    · exact absurd (congrArg Prod.snd h) (by simp)
    next status heqs =>
      split at h
      · -- user declined the drift confirmation: the world is untouched
        injection h with h1 h2
        subst h1
        rfl
      next hcont =>
        split at h
        · exact absurd (congrArg Prod.snd h) (by simp)
        next w1 distance heqd =>
          split at h
          · exact absurd (congrArg Prod.snd h) (by simp)
          next w2a cfg heqa =>
            split at h
            · exact absurd (congrArg Prod.snd h) (by simp)
            next w3 u heqsave =>
              split at h
              · exact absurd (congrArg Prod.snd h) (by simp)
              next w4 u2 heqw =>
                split at h
                · exact absurd (congrArg Prod.snd h) (by simp)
                next w5 heqr =>
                  split at h
                  · exact absurd (congrArg Prod.snd h) (by simp)
                  next w6 u3 heqapp =>
                    injection h with h1 h2
                    subst h1
                    rw [(apply_configuration_frame env cfg w5 w6 _ heqapp).1,
                      rev_checkout_ok_repo env _ _ _ _ heqr]

/-- C1 witness: a fully successful concrete run ends back on the
starting branch and hash. -/
theorem c1_update_rollback_invariant_witness :
    (update_configuration demoEnv demoAnsAccept demoConfig demoWorld).1.repo
      = demoWorld.repo :=
  c1_update_rollback_invariant demoEnv demoAnsAccept demoConfig demoWorld
    (update_configuration demoEnv demoAnsAccept demoConfig demoWorld).1
    UpdateOutcome.success rfl

/-- C5: when the drift check reports `Ahead` or `Behind` and the user
declines the confirmation, the whole update workflow terminates at once
with no changes at all: the returned world is exactly the starting one
(nothing persisted, no checkout ever performed). -/
theorem c5_drift_decline_aborts_unchanged (env : GitEnv)
    (ans : UpdateAnswers) (c : ConfigurationFile) (w : World)
    (bs : List String) (st : RepoStatus)
    (hfetch : env.fetch_ok = true) (hbr : env.branches = some bs)
    (hst : env.repo_status = some st)
    (hdrift : st.sync_state = RepoSyncState.Ahead ∨
      st.sync_state = RepoSyncState.Behind)
    (hans : ans.drift_continue = false) :
    update_configuration env ans c w = (w, Except.ok UpdateOutcome.declined) := by
  unfold update_configuration prompt_for_branch
  rcases hdrift with hd | hd <;>
    simp [hfetch, hbr, hst, hd, hans]

/-- C5 witness: the drift-decline run at a concrete environment. -/
theorem c5_drift_decline_aborts_unchanged_witness :
    update_configuration demoEnvAhead demoAnsAbort demoConfig demoWorld
      = (demoWorld, Except.ok UpdateOutcome.declined) :=
  c5_drift_decline_aborts_unchanged demoEnvAhead demoAnsAbort demoConfig
    demoWorld ["main", "dev"] ⟨RepoSyncState.Ahead, 1⟩ rfl rfl rfl
    (Or.inl rfl) rfl

/-- C3: in the update workflow, when the pinned hash is a positive
number of commits behind the tip of the tracked branch and the user
accepts the adopt-latest prompt, a successful run resolves the latest
commit hash of the tracked branch, checks the secrets repository out at
exactly that branch and hash, sets `pinned_hash` to it, and persists
the updated configuration to disk. -/
theorem c3_adopt_latest_updates_pin (env : GitEnv) (ans : UpdateAnswers)
    (c : ConfigurationFile) (w w2 : World) (bs : List String)
    (tipH latest : String) (d : Int)
    (hbr : env.branches = some bs)
    (htip : env.tip ans.selected_branch = some tipH)
    (hdist : env.distance_between c.pinned_hash tipH = some d)
    (hpos : d > 0)
    (haccept : ans.adopt_latest = true)
    (hlatest : env.latest_remote ans.selected_branch = some latest)
    (h : update_configuration env ans c w
      = (w2, Except.ok UpdateOutcome.success)) :
    w2.savedConfig =
      some { c with branch := ans.selected_branch, pinned_hash := latest } ∧
    (⟨ans.selected_branch, latest⟩ : RepoState) ∈ w2.checkoutLog := by
  have hp : prompt_for_branch env ans.selected_branch c true
      = Except.ok ({ c with branch := ans.selected_branch }, true) := by
    unfold prompt_for_branch
    simp [hbr]
  unfold update_configuration at h
  rw [haccept] at h
  split at h
  · exact absurd (congrArg Prod.snd h) (by simp)
  simp only [hp] at h
  split at h
  · exact absurd (congrArg Prod.snd h) (by simp)
  next status heqs =>
    split at h
    · exact absurd (congrArg Prod.snd h) (by simp)
    next hcont =>
      split at h
      · exact absurd (congrArg Prod.snd h) (by simp)
      next w1 distance heqd =>
        obtain ⟨hdeq, hw1repo, hw1saved, hw1log⟩ :=
          distance_check_inv env _ ans.selected_branch tipH w w1 distance d
            htip hdist heqd
        subst hdeq
        split at h
        · exact absurd (congrArg Prod.snd h) (by simp)
        next w2a cfg heqa =>
          obtain ⟨hcfg, hrepo2a, hsaved2a, hmem2a, hlog2a⟩ :=
            adopt_accept_inv env distance _ w1 w2a cfg latest hpos hlatest heqa
          subst hcfg
          split at h
          · exact absurd (congrArg Prod.snd h) (by simp)
          next w3 u heqsave =>
            obtain ⟨hrepo3, hlog3, hsaved3⟩ :=
              save_configuration_frame env _ w2a w3 _ heqsave
            split at h
            · exact absurd (congrArg Prod.snd h) (by simp)
            next w4 u2 heqw =>
              obtain ⟨hrepo4, hlog4, hsaved4⟩ :=
                write_encrypted_frame env _ w3 w4 _ heqw
              split at h
              · exact absurd (congrArg Prod.snd h) (by simp)
              next w5 heqr =>
                obtain ⟨hsaved5, hlog5⟩ :=
                  rev_checkout_frame env _ _ w4 w5 _ heqr
                split at h
                · exact absurd (congrArg Prod.snd h) (by simp)
                next w6 u3 heqapp =>
                  obtain ⟨hrepo6, hlog6, hsaved6⟩ :=
                    apply_configuration_frame env _ w5 w6 _ heqapp
                  injection h with h1 h2
                  subst h1
                  constructor
                  · rw [hsaved6, hsaved5, hsaved4]
                    exact hsaved3 rfl
                  · rw [hlog6]
                    refine hlog5 _ ?_
                    rw [hlog4, hlog3]
                    exact hmem2a

/-- C3 witness: the accepting concrete run pins `dev`'s tip `c3`,
persists it, and the checkout at `dev`/`c3` is in the log. -/
theorem c3_adopt_latest_updates_pin_witness :
    (update_configuration demoEnv demoAnsAccept demoConfig demoWorld).1.savedConfig
      = some { demoConfig with branch := "dev", pinned_hash := "c3" } ∧
    (⟨"dev", "c3"⟩ : RepoState) ∈
      (update_configuration demoEnv demoAnsAccept demoConfig demoWorld).1.checkoutLog :=
  c3_adopt_latest_updates_pin demoEnv demoAnsAccept demoConfig demoWorld
    (update_configuration demoEnv demoAnsAccept demoConfig demoWorld).1
    ["main", "dev"] "c3" "c3" 2 rfl rfl rfl (by decide) rfl rfl rfl

/-- C4: in the update workflow, when the pinned hash is a positive
number of commits behind the tip of the tracked branch and the user
declines the adopt-latest prompt, a successful run leaves `pinned_hash`
unchanged (the persisted configuration keeps the original pin) and the
secrets repository ends checked out at its pre-check branch and hash. -/
theorem c4_decline_leaves_pin_unchanged (env : GitEnv) (ans : UpdateAnswers)
    (c : ConfigurationFile) (w w2 : World) (bs : List String)
    (tipH : String) (d : Int)
    (hbr : env.branches = some bs)
    (htip : env.tip ans.selected_branch = some tipH)
    (hdist : env.distance_between c.pinned_hash tipH = some d)
    (hpos : d > 0)
    (hdecl : ans.adopt_latest = false)
    (h : update_configuration env ans c w
      = (w2, Except.ok UpdateOutcome.success)) :
    w2.savedConfig = some { c with branch := ans.selected_branch } ∧
    w2.repo = w.repo := by
  have hp : prompt_for_branch env ans.selected_branch c true
      = Except.ok ({ c with branch := ans.selected_branch }, true) := by
    unfold prompt_for_branch
    simp [hbr]
  unfold update_configuration at h
  rw [hdecl] at h
  split at h
  · exact absurd (congrArg Prod.snd h) (by simp)
  simp only [hp] at h
  split at h
  · exact absurd (congrArg Prod.snd h) (by simp)
  next status heqs =>
    split at h
    · exact absurd (congrArg Prod.snd h) (by simp)
    next hcont =>
      split at h
      · exact absurd (congrArg Prod.snd h) (by simp)
      next w1 distance heqd =>
        simp only [adopt_decline_eq] at h
        split at h
        · exact absurd (congrArg Prod.snd h) (by simp)
        next w3 u heqsave =>
          obtain ⟨hrepo3, hlog3, hsaved3⟩ :=
            save_configuration_frame env _ w1 w3 _ heqsave
          split at h
          · exact absurd (congrArg Prod.snd h) (by simp)
          next w4 u2 heqw =>
            obtain ⟨hrepo4, hlog4, hsaved4⟩ :=
              write_encrypted_frame env _ w3 w4 _ heqw
            split at h
            · exact absurd (congrArg Prod.snd h) (by simp)
            next w5 heqr =>
              obtain ⟨hsaved5, hlog5⟩ :=
                rev_checkout_frame env _ _ w4 w5 _ heqr
              split at h
              · exact absurd (congrArg Prod.snd h) (by simp)
              next w6 u3 heqapp =>
                obtain ⟨hrepo6, hlog6, hsaved6⟩ :=
                  apply_configuration_frame env _ w5 w6 _ heqapp
                injection h with h1 h2
                subst h1
                constructor
                · rw [hsaved6, hsaved5, hsaved4]
                  exact hsaved3 rfl
                · rw [hrepo6, rev_checkout_ok_repo env _ _ _ _ heqr]

/-- C4 witness: the declining concrete run keeps the persisted pin at
`c1` and ends back on the starting branch and hash. -/
theorem c4_decline_leaves_pin_unchanged_witness :
    (update_configuration demoEnv demoAnsDecline demoConfig demoWorld).1.savedConfig
      = some { demoConfig with branch := "dev" } ∧
    (update_configuration demoEnv demoAnsDecline demoConfig demoWorld).1.repo
      = demoWorld.repo :=
  c4_decline_leaves_pin_unchanged demoEnv demoAnsDecline demoConfig demoWorld
    (update_configuration demoEnv demoAnsDecline demoConfig demoWorld).1
    ["main", "dev"] "c3" 2 rfl rfl rfl (by decide) rfl rfl

/-- C9: the setup (init) workflow fills missing fields only: the
project-name prompt occurs iff `project_name` is empty (a non-empty one
is left unchanged), the pinned hash is derived from the selected
branch's latest hash iff `pinned_hash` is empty (a non-empty one is
left unchanged), and the branch is always force-prompted. -/
theorem c9_setup_fills_missing_only (env : GitEnv) (ans : SetupAnswers)
    (c c2 : ConfigurationFile) (tr : SetupTrace)
    (h : setup_configuration env ans c = Except.ok (c2, tr)) :
    tr.prompted_project_name = c.needs_project_name ∧
    (c.needs_project_name = false → c2.project_name = c.project_name) ∧
    (c.needs_project_name = true →
      c2.project_name = ans.answered_project_name) ∧
    tr.prompted_branch = true ∧
    tr.derived_pinned_hash = c.needs_pinned_hash ∧
    (c.needs_pinned_hash = false → c2.pinned_hash = c.pinned_hash) ∧
    (c.needs_pinned_hash = true →
      env.secrets_latest_hash ans.selected_branch = some c2.pinned_hash) := by
  have hpb : ∀ cc : ConfigurationFile,
      prompt_for_branch env ans.selected_branch cc true
        = match env.branches with
          | none => Except.error "Unable to fetch secrets branches"
          | some _ =>
              Except.ok ({ cc with branch := ans.selected_branch }, true) := by
    intro cc
    unfold prompt_for_branch
    simp
  unfold setup_configuration prompt_for_project_name_if_needed
    set_latest_hash_if_needed prompt_to_add_files at h
  simp only [hpb] at h
  cases hbs : env.branches with
  | none =>
      rw [hbs] at h
      simp at h
  | some bs =>
      rw [hbs] at h
      cases hname : c.needs_project_name <;>
        cases hpin : c.needs_pinned_hash <;>
          simp only [ConfigurationFile.needs_pinned_hash] at hpin <;>
          simp [hname, ConfigurationFile.needs_pinned_hash, hpin] at h <;>
          cases hlat : env.secrets_latest_hash ans.selected_branch <;>
            (try simp only [hlat] at h) <;>
            (try simp at h) <;>
            repeat' split at h
      all_goals try (injection h with hx; injection hx with h1 h2)
      all_goals try (obtain ⟨h1, h2⟩ := h)
      all_goals try subst h1
      all_goals try subst h2
      all_goals
        simp_all [ConfigurationFile.needs_project_name,
          ConfigurationFile.needs_pinned_hash]


/-- C9 witness: running setup on the all-empty configuration prompts
for everything; the derived pin is `dev`'s latest hash `c3`. -/
theorem c9_setup_fills_missing_only_witness :
    (SetupTrace.mk true true true).prompted_project_name
        = ConfigurationFile.default.needs_project_name ∧
    (ConfigurationFile.default.needs_project_name = false →
      ("proj" : String) = ConfigurationFile.default.project_name) ∧
    (ConfigurationFile.default.needs_project_name = true →
      ("proj" : String) = demoSetupAns.answered_project_name) ∧
    (SetupTrace.mk true true true).prompted_branch = true ∧
    (SetupTrace.mk true true true).derived_pinned_hash
        = ConfigurationFile.default.needs_pinned_hash ∧
    (ConfigurationFile.default.needs_pinned_hash = false →
      ("c3" : String) = ConfigurationFile.default.pinned_hash) ∧
    (ConfigurationFile.default.needs_pinned_hash = true →
      demoEnv.secrets_latest_hash demoSetupAns.selected_branch = some "c3") :=
  c9_setup_fills_missing_only demoEnv demoSetupAns ConfigurationFile.default
    ⟨"proj", "dev", "c3", [⟨"a", "b"⟩]⟩ ⟨true, true, true⟩ rfl

end Configure
